import Mathlib

/-!
# Verification of the SSE session transport of `moralis-mcp-server`

A shallow embedding of `src/web-server.ts`: the `CustomSSETransport` class
(session-addressed SSE stream, JSON-RPC message handling, request routing)
and the Express handlers installed by `setupWebServer` (the `GET /sse`
stream-open handler, the `POST /api/messages` submission handler, and the
session-table lifecycle callbacks).

Stateful code is embedded as explicit state passing: a `TransportState`
records one SSE connection (its written frames and destroyed flag), a
`ServerState` records the session table, and the Express handlers become
pure functions from state to state plus an observable outcome/trace.
-/

/-- A JSON value, the opaque parameter/result payload carried by envelopes. -/
inductive JsonValue where
  | null
  | bool (b : Bool)
  | num (n : Int)
  | str (s : String)
  | arr (xs : List JsonValue)
  | obj (fields : List (String × JsonValue))

/-- A JSON-RPC error object as constructed in `handleMessage`
(`{ code, message }`). -/
structure RpcError where
  code : Int
  message : String

/-- A JSON-RPC request identifier (the SDK's `RequestIdSchema` is a union of
string and number). -/
inductive RequestId where
  | str (s : String)
  | num (n : Int)
deriving DecidableEq

/-- A JSON-RPC message as handled by the transport (the SDK's
`JSONRPCMessage` union): a request (identifier present, expects a reply), a
fire-and-forget message without an identifier, or a response object carrying
optional `result` / `error` fields — `handleMessage` builds responses as
plain objects `{jsonrpc, id, result}` or `{jsonrpc, id, error}`, which the
`result?` / `error?` options embed. -/
inductive JSONRPCMessage where
  | request (id : RequestId) (method : String) (params : JsonValue)
  | notif (method : String) (params : JsonValue)
  | response (id : RequestId) (result? : Option JsonValue) (error? : Option RpcError)

/-- The guard `'id' in message && message.id !== undefined` of
`handleMessage`: the identifier of a message, if present. -/
def idOf? : JSONRPCMessage → Option RequestId
  | .request i _ _ => some i
  | .notif _ _ => none
  | .response i _ _ => some i

/-- The `method` property of a message; `none` embeds JavaScript
`undefined` (a response object read as a `JSONRPCRequest` has no method). -/
def methodOf? : JSONRPCMessage → Option String
  | .request _ m _ => some m
  | .notif m _ => some m
  | .response _ _ _ => none

/-- String interpolation of a possibly-`undefined` method
(`${request.method}` prints `undefined` when the field is absent). -/
def methodStr (msg : JSONRPCMessage) : String :=
  (methodOf? msg).getD "undefined"

/-- The pass-through credential (`{ token?: string }`). -/
structure AuthInfo where
  token? : Option String

/-- A registered request handler: `(request, { authInfo }) → Promise`;
a rejected promise is embedded as `.error` carrying the failure's message
(the string `handleMessage` extracts via `error.message`). -/
def Handler : Type :=
  JSONRPCMessage → Option AuthInfo → Except String JsonValue

/-- The MCP server's internal handler map `_requestHandlers`, keyed by
method name — the capability registry the transport reaches into. -/
structure Registry where
  handlers : List (String × Handler)

/-- Association-list lookup, the embedding of both the JavaScript map
access `handlers?.get(name)` and the object access `transports[sessionId]`. -/
def alistLookup {β : Type} : List (String × β) → String → Option β
  | [], _ => none
  | p :: t, k => if p.1 = k then some p.2 else alistLookup t k

/-- `handlers?.get(name)` on the registry. -/
def Registry.lookup (r : Registry) (name : String) : Option Handler :=
  alistLookup r.handlers name

/-- The data payload of one SSE frame: the endpoint-announcement URL
string, the session-info JSON, or a serialized JSON-RPC message
(`JSON.stringify` is left structural: the payload is kept as the value it
serializes). -/
inductive SSEData where
  | endpointUrl (url : String)
  | sessionInfo (sessionId : String)
  | message (m : JSONRPCMessage)

/-- One SSE frame as written by `writeSSE`: an `event:` label and a
`data:` payload. -/
structure SSEFrame where
  event : String
  data : SSEData

/-- The state of one `CustomSSETransport`: its session identifier, the
submission URL it announces, the `response.destroyed` flag of the
underlying connection, the frames written to the stream so far, and the
MCP server connected via `connectToServer` (`this.server`). -/
structure TransportState where
  sessionId : String
  messageUrl : String
  destroyed : Bool
  written : List SSEFrame
  server : Option Registry

/-- `writeSSE(event, data)`: writes one frame unless the connection is
destroyed. -/
def writeSSE (ts : TransportState) (event : String) (data : SSEData) : TransportState :=
  if ts.destroyed then ts
  else { ts with written := ts.written ++ [⟨event, data⟩] }

/-- `send(message)`: throws `Not connected` on a destroyed connection,
otherwise writes the message as one `message` frame. -/
def send (ts : TransportState) (m : JSONRPCMessage) : Except String TransportState :=
  if ts.destroyed then .error "Not connected"
  else .ok (writeSSE ts "message" (.message m))

namespace Config

/-- Modelled from the spec: the server identity metadata exported by the
configuration module (`config.ts`, not under `src/`); the spec treats it
as an opaque identity string and no claim depends on its value. -/
def SERVER_NAME : String := "moralis-mcp-server"

/-- Modelled from the spec: the server version metadata exported by the
configuration module (`config.ts`, not under `src/`); opaque as above. -/
def SERVER_VERSION : String := "1.0.0"

end Config

/-- The welcome notification `start` sends after the endpoint and session
frames. -/
def welcomeMessage (sid : String) : JSONRPCMessage :=
  .notif "notification" (.obj
    [("type", .str "welcome"),
     ("clientInfo", .obj
       [("sessionId", .str sid),
        ("serverName", .str Config.SERVER_NAME),
        ("serverVersion", .str Config.SERVER_VERSION)])])

/-- `start()`: throws if the connection is already destroyed; otherwise
writes the endpoint-announcement frame, then the session-info frame, then
sends the welcome notification. -/
def start (ts : TransportState) : Except String TransportState :=
  if ts.destroyed then .error "SSE transport already closed!"
  else
    let ts1 := writeSSE ts "endpoint" (.endpointUrl (ts.messageUrl ++ "?sessionId=" ++ ts.sessionId))
    let ts2 := writeSSE ts1 "session" (.sessionInfo ts.sessionId)
    send ts2 (welcomeMessage ts.sessionId)

/-- `new CustomSSETransport(messageUrl, response)` for a freshly accepted
connection with identifier `sid` (the SSE headers it writes are connection
framing, not stream events). -/
def newTransport (messageUrl sid : String) : TransportState :=
  { sessionId := sid, messageUrl := messageUrl, destroyed := false
    written := [], server := none }

/-- `connectToServer(server)`. -/
def connectToServer (ts : TransportState) (reg : Registry) : TransportState :=
  { ts with server := some reg }

/-- The HTTP body of a submission-call reply: the literal `Accepted` text,
or a JSON-RPC error object with `id: null`. -/
inductive PostBody where
  | accepted
  | rpcError (code : Int) (message : String)

/-- An observable event of one submission call, in program order: a
registry handler invocation completing, a frame written to a session's
stream, or the HTTP reply of the submission call itself. -/
inductive PostEvent where
  | invoked (method : String)
  | wrote (sessionId : String) (frame : SSEFrame)
  | replied (status : Nat) (body : PostBody)

/-- Result of `routeRequest`: the handler invocations it performed (as
trace events) and its returned value or thrown error message. -/
structure RouteOutcome where
  trace : List PostEvent
  result : Except String JsonValue

/-- `routeRequest(request, authInfo)`: dispatches `tools/list` and
`tools/call` to the registry's handler when one is registered; every other
case falls through to `throw new Error('Unknown method: ...')`. -/
def routeRequest (server : Option Registry) (req : JSONRPCMessage)
    (auth : Option AuthInfo) : RouteOutcome :=
  match server with
  | none => ⟨[], .error "MCP server not connected"⟩
  | some reg =>
    if methodOf? req = some "tools/list" then
      match reg.lookup "tools/list" with
      | some h => ⟨[.invoked "tools/list"], h req auth⟩
      | none => ⟨[], .error ("Unknown method: " ++ methodStr req)⟩
    else if methodOf? req = some "tools/call" then
      match reg.lookup "tools/call" with
      | some h => ⟨[.invoked "tools/call"], h req auth⟩
      | none => ⟨[], .error ("Unknown method: " ++ methodStr req)⟩
    else ⟨[], .error ("Unknown method: " ++ methodStr req)⟩

/-- Result of `handleMessage`: the transport state after any stream write,
the trace of invocations and writes, and — when the outer `catch` caught a
failure — the message passed to the registered `onerror` callback. -/
structure HandleOutcome where
  state : TransportState
  trace : List PostEvent
  errorRaised : Option String

/-- The response object `handleMessage` builds around a routing outcome:
`{jsonrpc, id, result}` on success, `{jsonrpc, id, error: {code: -32603,
message}}` on a thrown/rejected invocation. -/
def responseFor (rid : RequestId) : Except String JsonValue → JSONRPCMessage
  | .ok v => .response rid (some v) none
  | .error emsg => .response rid none (some ⟨-32603, emsg⟩)

/-- `handleMessage(message, authInfo)`: throws if no server is connected;
ignores messages without an identifier; otherwise routes the request,
wraps the outcome as a response echoing the identifier, and sends it over
the stream. A failure of `send` is caught by the outer `catch`, which
invokes `onerror`. -/
def handleMessage (ts : TransportState) (msg : JSONRPCMessage)
    (auth : Option AuthInfo) : Except String HandleOutcome :=
  match ts.server with
  | none => .error "MCP server not connected to transport"
  | some _ =>
    match idOf? msg with
    | none => .ok ⟨ts, [], none⟩
    | some rid =>
      let ro := routeRequest ts.server msg auth
      let resp : JSONRPCMessage := responseFor rid ro.result
      match send ts resp with
      | .ok ts' =>
        .ok ⟨ts', ro.trace ++ [.wrote ts.sessionId ⟨"message", .message resp⟩], none⟩
      | .error emsg => .ok ⟨ts, ro.trace, some emsg⟩

/-- Modelled from the SDK collaborator: the outcome of
`JSONRPCMessageSchema.parse(req.body)` — the submitted body either parses
to a message or the parse throws. -/
inductive RawPayload where
  | valid (m : JSONRPCMessage)
  | malformed

/-- `JSONRPCMessageSchema.parse` as a fallible function. -/
def parseMessage : RawPayload → Except String JSONRPCMessage
  | .valid m => .ok m
  | .malformed => .error "schema validation failed"

/-- The session table `transports`, keyed by session identifier. -/
abbrev SessionTable : Type :=
  List (String × TransportState)

/-- Replacing the entry stored under `sid` (in-place mutation of the
transport object the table references). -/
def updateTable (t : SessionTable) (sid : String) (ts : TransportState) : SessionTable :=
  t.map fun p => if p.1 = sid then (p.1, ts) else p

/-- `delete transports[sid]`, as performed by the registered
`onclose` / `onerror` callbacks. -/
def removeTable (t : SessionTable) (sid : String) : SessionTable :=
  t.filter fun p => p.1 != sid

/-- Result of one `POST /api/messages` call: HTTP status and body, the
session table afterwards, and the trace of observable events in program
order. -/
structure PostOutcome where
  status : Nat
  body : PostBody
  table : SessionTable
  trace : List PostEvent

/-- The `POST /api/messages` handler: rejects a missing (or, by JavaScript
truthiness, empty) `sessionId` with 400, an unknown one with 404; then
parses the body and runs `handleMessage` inside `try`, replying 500 if
either throws and `202 Accepted` otherwise. An `onerror` raised during
`handleMessage` deletes the session from the table. -/
def postMessages (t : SessionTable) (sessionId? : Option String)
    (raw : RawPayload) (auth : Option AuthInfo) : PostOutcome :=
  match sessionId? with
  | none =>
    ⟨400, .rpcError (-32602) "Missing sessionId query parameter", t,
     [.replied 400 (.rpcError (-32602) "Missing sessionId query parameter")]⟩
  | some sid =>
    if sid = "" then
      ⟨400, .rpcError (-32602) "Missing sessionId query parameter", t,
       [.replied 400 (.rpcError (-32602) "Missing sessionId query parameter")]⟩
    else
      match alistLookup t sid with
      | none =>
        ⟨404, .rpcError (-32602) "No active session found with the provided sessionId", t,
         [.replied 404 (.rpcError (-32602) "No active session found with the provided sessionId")]⟩
      | some ts =>
        match parseMessage raw with
        | .error _ =>
          ⟨500, .rpcError (-32603) "Internal error processing message", t,
           [.replied 500 (.rpcError (-32603) "Internal error processing message")]⟩
        | .ok msg =>
          match handleMessage ts msg auth with
          | .error _ =>
            ⟨500, .rpcError (-32603) "Internal error processing message", t,
             [.replied 500 (.rpcError (-32603) "Internal error processing message")]⟩
          | .ok o =>
            let t1 := updateTable t sid o.state
            let t2 := if o.errorRaised.isSome then removeTable t1 sid else t1
            ⟨202, .accepted, t2, o.trace ++ [.replied 202 .accepted]⟩

/-- Modelled from the spec: the `uuid` v4 generator (external library) is
a fresh-identifier source, "generated at creation, collision-free within
process lifetime"; embedded as an injective function of a per-process
creation counter. -/
def uuidGen (n : Nat) : String :=
  String.mk (List.replicate (n + 1) 'u')

/-- The whole web server's state: the session table and the identifier
generator's creation counter. -/
structure ServerState where
  table : SessionTable
  nextId : Nat

/-- The state before any connection: `transports = {}`. -/
def initialServer : ServerState :=
  { table := [], nextId := 0 }

/-- The `GET /sse` handler: constructs a `CustomSSETransport` with a fresh
identifier, stores it in the session table, installs the
`onclose` / `onerror` deletion callbacks, connects the MCP server, and
calls `start()` (whose failure the surrounding `catch` swallows, leaving
the already-inserted entry in place). -/
def openStream (s : ServerState) (reg : Registry) : ServerState :=
  let sid := uuidGen s.nextId
  let ts := connectToServer (newTransport "/api/messages" sid) reg
  match start ts with
  | .ok ts' => { table := (sid, ts') :: s.table, nextId := s.nextId + 1 }
  | .error _ => { table := (sid, ts) :: s.table, nextId := s.nextId + 1 }

/-- The connection's `close` or `error` event: the transport's hook fires
the registered `onclose` / `onerror` callback, which deletes the session
from the table (the now-dead connection also stops being writable). -/
def closeStream (s : ServerState) (sid : String) : ServerState :=
  { s with table := removeTable s.table sid }

/-- One observable transition of the web server: a stream open, a
connection close/error, or a submission call. -/
inductive ServerStep : ServerState → ServerState → Prop where
  | openS (s : ServerState) (reg : Registry) : ServerStep s (openStream s reg)
  | closeS (s : ServerState) (sid : String) : ServerStep s (closeStream s sid)
  | postS (s : ServerState) (sessionId? : Option String) (raw : RawPayload)
      (auth : Option AuthInfo) :
      ServerStep s ⟨(postMessages s.table sessionId? raw auth).table, s.nextId⟩

/-- States reachable from the empty server by transitions. -/
inductive ServerReachable : ServerState → Prop where
  | init : ServerReachable initialServer
  | step {s s' : ServerState} : ServerReachable s → ServerStep s s' → ServerReachable s'

/-! ## Helper lemmas about the session table -/

theorem alistLookup_mem {β : Type} {t : List (String × β)} {k : String} {v : β}
    (h : alistLookup t k = some v) : (k, v) ∈ t := by
  induction t with
  | nil => exact absurd h (by simp [alistLookup])
  | cons p rest ih =>
    obtain ⟨a, b⟩ := p
    by_cases hp : a = k
    · subst hp
      simp [alistLookup] at h
      subst h
      exact List.mem_cons_self _ _
    · simp only [alistLookup, if_neg hp] at h
      exact List.mem_cons_of_mem _ (ih h)

theorem alistLookup_update_self {t : SessionTable} {sid : String} {ts : TransportState}
    (x : TransportState) (h : alistLookup t sid = some ts) :
    alistLookup (updateTable t sid x) sid = some x := by
  induction t with
  | nil => exact absurd h (by simp [alistLookup])
  | cons p rest ih =>
    obtain ⟨a, b⟩ := p
    by_cases hp : a = sid
    · subst hp
      simp [updateTable, alistLookup]
    · simp only [alistLookup, if_neg hp] at h
      simpa [updateTable, alistLookup, hp] using ih h

theorem alistLookup_update_other {t : SessionTable} {sid sid' : String}
    (x : TransportState) (h : sid' ≠ sid) :
    alistLookup (updateTable t sid x) sid' = alistLookup t sid' := by
  induction t with
  | nil => simp [alistLookup, updateTable]
  | cons p rest ih =>
    obtain ⟨a, b⟩ := p
    by_cases hp : a = sid
    · subst hp
      have hq : ¬a = sid' := fun he => h (he.symm)
      simpa [updateTable, alistLookup, hq] using ih
    · by_cases hq : a = sid'
      · subst hq
        simp [updateTable, alistLookup, hp]
      · simpa [updateTable, alistLookup, hp, hq] using ih

theorem alistLookup_remove_self (t : SessionTable) (sid : String) :
    alistLookup (removeTable t sid) sid = none := by
  induction t with
  | nil => simp [alistLookup, removeTable]
  | cons p rest ih =>
    obtain ⟨a, b⟩ := p
    by_cases hp : a = sid
    · simpa [removeTable, List.filter_cons, hp] using ih
    · simpa [removeTable, List.filter_cons, hp, alistLookup] using ih

theorem alistLookup_remove_other {t : SessionTable} {sid sid' : String}
    (h : sid' ≠ sid) :
    alistLookup (removeTable t sid) sid' = alistLookup t sid' := by
  induction t with
  | nil => simp [alistLookup, removeTable]
  | cons p rest ih =>
    obtain ⟨a, b⟩ := p
    by_cases hp : a = sid
    · subst hp
      have hq : ¬a = sid' := fun he => h (he.symm)
      simpa [removeTable, List.filter_cons, alistLookup, hq] using ih
    · by_cases hq : a = sid'
      · subst hq
        simp [removeTable, List.filter_cons, alistLookup, hp]
      · simpa [removeTable, List.filter_cons, alistLookup, hp, hq] using ih

theorem map_fst_updateTable (t : SessionTable) (sid : String) (x : TransportState) :
    (updateTable t sid x).map Prod.fst = t.map Prod.fst := by
  induction t with
  | nil => rfl
  | cons p rest ih =>
    obtain ⟨a, b⟩ := p
    by_cases hp : a = sid
    · simpa [updateTable, hp] using ih
    · simpa [updateTable, hp] using ih

theorem mem_updateTable {t : SessionTable} {sid : String} {x : TransportState}
    {q : String × TransportState} (h : q ∈ updateTable t sid x) :
    q ∈ t ∨ (q.1 = sid ∧ q.2 = x) := by
  induction t with
  | nil => simp [updateTable] at h
  | cons p rest ih =>
    obtain ⟨a, b⟩ := p
    simp only [updateTable, List.map_cons, List.mem_cons] at h
    rcases h with h | h
    · by_cases hp : a = sid
      · rw [if_pos hp] at h
        subst h
        exact Or.inr ⟨hp, rfl⟩
      · rw [if_neg hp] at h
        subst h
        exact Or.inl (List.mem_cons_self _ _)
    · rcases ih h with h' | h'
      · exact Or.inl (List.mem_cons_of_mem _ h')
      · exact Or.inr h'

theorem mem_removeTable {t : SessionTable} {sid : String}
    {q : String × TransportState} (h : q ∈ removeTable t sid) : q ∈ t :=
  List.mem_of_mem_filter h

/-! ## Helper lemmas about the transport operations -/

theorem writeSSE_destroyed (ts : TransportState) (e : String) (d : SSEData) :
    (writeSSE ts e d).destroyed = ts.destroyed := by
  unfold writeSSE
  split <;> rfl

theorem writeSSE_sessionId (ts : TransportState) (e : String) (d : SSEData) :
    (writeSSE ts e d).sessionId = ts.sessionId := by
  unfold writeSSE
  split <;> rfl

theorem writeSSE_server (ts : TransportState) (e : String) (d : SSEData) :
    (writeSSE ts e d).server = ts.server := by
  unfold writeSSE
  split <;> rfl

theorem writeSSE_live {ts : TransportState} (e : String) (d : SSEData)
    (h : ts.destroyed = false) :
    writeSSE ts e d = { ts with written := ts.written ++ [⟨e, d⟩] } := by
  unfold writeSSE
  rw [h]
  rfl

theorem send_live {ts : TransportState} (m : JSONRPCMessage)
    (h : ts.destroyed = false) :
    send ts m = .ok { ts with written := ts.written ++ [⟨"message", .message m⟩] } := by
  simp [send, writeSSE, h]

theorem send_dead {ts : TransportState} (m : JSONRPCMessage)
    (h : ts.destroyed = true) : send ts m = .error "Not connected" := by
  unfold send
  rw [h]
  rfl

/-- On a live, connected transport, an identified message is routed and
its response frame is appended to the stream. -/
theorem handleMessage_id_live {ts : TransportState} {reg : Registry}
    {msg : JSONRPCMessage} {rid : RequestId} (auth : Option AuthInfo)
    (hs : ts.server = some reg) (hid : idOf? msg = some rid)
    (hd : ts.destroyed = false) :
    handleMessage ts msg auth =
      .ok ⟨{ ts with written := ts.written ++
               [⟨"message", .message (responseFor rid (routeRequest (some reg) msg auth).result)⟩] },
           (routeRequest (some reg) msg auth).trace ++
             [.wrote ts.sessionId
               ⟨"message", .message (responseFor rid (routeRequest (some reg) msg auth).result)⟩],
           none⟩ := by
  unfold handleMessage
  rw [hs, hid]
  simp only [send_live _ hd]
  rw [hs]

/-- On a destroyed transport, `send` throws, the outer `catch` raises
`onerror` and nothing is written. -/
theorem handleMessage_id_dead {ts : TransportState} {reg : Registry}
    {msg : JSONRPCMessage} {rid : RequestId} (auth : Option AuthInfo)
    (hs : ts.server = some reg) (hid : idOf? msg = some rid)
    (hd : ts.destroyed = true) :
    handleMessage ts msg auth =
      .ok ⟨ts, (routeRequest (some reg) msg auth).trace, some "Not connected"⟩ := by
  unfold handleMessage
  rw [hs, hid]
  simp only [send_dead _ hd]

/-- A message without an identifier is ignored. -/
theorem handleMessage_noId {ts : TransportState} {reg : Registry}
    {msg : JSONRPCMessage} (auth : Option AuthInfo)
    (hs : ts.server = some reg) (hid : idOf? msg = none) :
    handleMessage ts msg auth = .ok ⟨ts, [], none⟩ := by
  unfold handleMessage
  rw [hs, hid]

theorem handleMessage_ok_fields {ts : TransportState} {msg : JSONRPCMessage}
    {auth : Option AuthInfo} {o : HandleOutcome}
    (h : handleMessage ts msg auth = .ok o) :
    o.state.destroyed = ts.destroyed ∧ o.state.sessionId = ts.sessionId ∧
      o.state.server = ts.server := by
  cases hs : ts.server with
  | none =>
    unfold handleMessage at h
    rw [hs] at h
    cases h
  | some reg =>
    cases hid : idOf? msg with
    | none =>
      rw [handleMessage_noId auth hs hid] at h
      cases h
      exact ⟨rfl, rfl, hs⟩
    | some rid =>
      cases hd : ts.destroyed with
      | false =>
        rw [handleMessage_id_live auth hs hid hd] at h
        cases h
        exact ⟨hd, rfl, hs⟩
      | true =>
        rw [handleMessage_id_dead auth hs hid hd] at h
        cases h
        exact ⟨hd, rfl, hs⟩

/-! ## Routing lemmas -/

theorem routeRequest_invokes {reg : Registry} {req : JSONRPCMessage} {m : String}
    {h : Handler} (auth : Option AuthInfo)
    (hmem : m = "tools/list" ∨ m = "tools/call")
    (hm : methodOf? req = some m) (hl : reg.lookup m = some h) :
    routeRequest (some reg) req auth = ⟨[.invoked m], h req auth⟩ := by
  rcases hmem with hm' | hm' <;> subst hm' <;> simp [routeRequest, hm, hl]

theorem routeRequest_unknown {reg : Registry} {req : JSONRPCMessage}
    (auth : Option AuthInfo)
    (hcase : (methodOf? req ≠ some "tools/list" ∧ methodOf? req ≠ some "tools/call") ∨
      (∀ m, methodOf? req = some m → reg.lookup m = none)) :
    routeRequest (some reg) req auth =
      ⟨[], .error ("Unknown method: " ++ methodStr req)⟩ := by
  rcases hcase with ⟨h1, h2⟩ | hnone
  · simp [routeRequest, h1, h2]
  · unfold routeRequest
    by_cases h1 : methodOf? req = some "tools/list"
    · simp [h1, hnone _ h1]
    · by_cases h2 : methodOf? req = some "tools/call"
      · simp [h1, h2, hnone _ h2]
      · simp [h1, h2]

/-! ## Freshness of session identifiers -/

theorem uuidGen_injective {m n : Nat} (h : uuidGen m = uuidGen n) : m = n := by
  unfold uuidGen at h
  have hlen := congrArg (fun s : String => s.data.length) h
  simpa using hlen

/-- The transport stored by the `GET /sse` handler right after `start()`
succeeds: fresh, live, connected, carrying exactly the three opening
frames in order. -/
def startedTransport (sid : String) (reg : Registry) : TransportState :=
  { sessionId := sid, messageUrl := "/api/messages", destroyed := false
    written :=
      [⟨"endpoint", .endpointUrl ("/api/messages" ++ "?sessionId=" ++ sid)⟩,
       ⟨"session", .sessionInfo sid⟩,
       ⟨"message", .message (welcomeMessage sid)⟩]
    server := some reg }

theorem start_fresh (u sid : String) (reg : Registry) :
    start (connectToServer (newTransport u sid) reg) =
      .ok { sessionId := sid, messageUrl := u, destroyed := false
            written :=
              [⟨"endpoint", .endpointUrl (u ++ "?sessionId=" ++ sid)⟩,
               ⟨"session", .sessionInfo sid⟩,
               ⟨"message", .message (welcomeMessage sid)⟩]
            server := some reg } := by
  simp [start, connectToServer, newTransport, writeSSE, send]

theorem openStream_eq (s : ServerState) (reg : Registry) :
    openStream s reg =
      { table := (uuidGen s.nextId, startedTransport (uuidGen s.nextId) reg) :: s.table
        nextId := s.nextId + 1 } := by
  simp only [openStream, start_fresh]
  rfl

/-! ## Branch equations for the submission handler -/

theorem postMessages_noSession (t : SessionTable) (raw : RawPayload)
    (auth : Option AuthInfo) :
    postMessages t none raw auth =
      ⟨400, .rpcError (-32602) "Missing sessionId query parameter", t,
       [.replied 400 (.rpcError (-32602) "Missing sessionId query parameter")]⟩ := rfl

theorem postMessages_emptySession (t : SessionTable) (raw : RawPayload)
    (auth : Option AuthInfo) :
    postMessages t (some "") raw auth =
      ⟨400, .rpcError (-32602) "Missing sessionId query parameter", t,
       [.replied 400 (.rpcError (-32602) "Missing sessionId query parameter")]⟩ := by
  simp [postMessages]

theorem postMessages_unknownSession {t : SessionTable} {sid : String}
    (raw : RawPayload) (auth : Option AuthInfo)
    (hsid : sid ≠ "") (hl : alistLookup t sid = none) :
    postMessages t (some sid) raw auth =
      ⟨404, .rpcError (-32602) "No active session found with the provided sessionId", t,
       [.replied 404 (.rpcError (-32602) "No active session found with the provided sessionId")]⟩ := by
  simp [postMessages, hsid, hl]

theorem postMessages_malformed {t : SessionTable} {sid : String} {ts : TransportState}
    (auth : Option AuthInfo) (hsid : sid ≠ "") (hl : alistLookup t sid = some ts) :
    postMessages t (some sid) .malformed auth =
      ⟨500, .rpcError (-32603) "Internal error processing message", t,
       [.replied 500 (.rpcError (-32603) "Internal error processing message")]⟩ := by
  simp [postMessages, hsid, hl, parseMessage]

theorem postMessages_handleError {t : SessionTable} {sid : String}
    {ts : TransportState} {msg : JSONRPCMessage} {auth : Option AuthInfo} {e : String}
    (hsid : sid ≠ "") (hl : alistLookup t sid = some ts)
    (hh : handleMessage ts msg auth = .error e) :
    postMessages t (some sid) (.valid msg) auth =
      ⟨500, .rpcError (-32603) "Internal error processing message", t,
       [.replied 500 (.rpcError (-32603) "Internal error processing message")]⟩ := by
  simp [postMessages, hsid, hl, parseMessage, hh]

theorem postMessages_accepted {t : SessionTable} {sid : String}
    {ts : TransportState} {msg : JSONRPCMessage} {auth : Option AuthInfo}
    {o : HandleOutcome}
    (hsid : sid ≠ "") (hl : alistLookup t sid = some ts)
    (hh : handleMessage ts msg auth = .ok o) :
    postMessages t (some sid) (.valid msg) auth =
      ⟨202, .accepted,
       if o.errorRaised.isSome then removeTable (updateTable t sid o.state) sid
       else updateTable t sid o.state,
       o.trace ++ [.replied 202 .accepted]⟩ := by
  simp [postMessages, hsid, hl, parseMessage, hh]

/-! ## The session-table invariant -/

/-- What holds of every entry of a reachable session table: the stream is
live, a server is connected, the stored transport knows its own key, and
the key was issued by the identifier generator before the current
counter. -/
def EntryOk (nextId : Nat) (p : String × TransportState) : Prop :=
  p.2.destroyed = false ∧ p.2.server.isSome ∧ p.2.sessionId = p.1 ∧
    ∃ k, k < nextId ∧ p.1 = uuidGen k

/-- The session-table invariant: every entry is a live session and the
keys are pairwise distinct. -/
def TableOk (s : ServerState) : Prop :=
  (∀ p ∈ s.table, EntryOk s.nextId p) ∧ (s.table.map Prod.fst).Nodup

theorem tableOk_open {s : ServerState} (reg : Registry) (h : TableOk s) :
    TableOk (openStream s reg) := by
  obtain ⟨hok, hnd⟩ := h
  rw [openStream_eq]
  constructor
  · intro p hp
    rcases List.mem_cons.mp hp with hp | hp
    · subst hp
      exact ⟨rfl, rfl, rfl, s.nextId, Nat.lt_succ_self _, rfl⟩
    · obtain ⟨h1, h2, h3, k, hk, he⟩ := hok p hp
      exact ⟨h1, h2, h3, k, Nat.lt_succ_of_lt hk, he⟩
  · rw [List.map_cons]
    refine List.nodup_cons.mpr ⟨?_, hnd⟩
    intro hmem
    obtain ⟨p, hp, hfst⟩ := List.mem_map.mp hmem
    obtain ⟨_, _, _, k, hk, he⟩ := hok p hp
    have : k = s.nextId := uuidGen_injective (by rw [← he, hfst])
    omega

theorem tableOk_close {s : ServerState} (sid : String) (h : TableOk s) :
    TableOk (closeStream s sid) := by
  obtain ⟨hok, hnd⟩ := h
  constructor
  · intro p hp
    exact hok p (mem_removeTable hp)
  · exact hnd.sublist ((List.filter_sublist _).map Prod.fst)

theorem tableOk_post {s : ServerState} (sessionId? : Option String)
    (raw : RawPayload) (auth : Option AuthInfo) (h : TableOk s) :
    TableOk ⟨(postMessages s.table sessionId? raw auth).table, s.nextId⟩ := by
  obtain ⟨hok, hnd⟩ := h
  rcases sessionId? with _ | sid
  · rw [postMessages_noSession]
    exact ⟨hok, hnd⟩
  · by_cases hsid : sid = ""
    · subst hsid
      rw [postMessages_emptySession]
      exact ⟨hok, hnd⟩
    · cases hl : alistLookup s.table sid with
      | none =>
        rw [postMessages_unknownSession raw auth hsid hl]
        exact ⟨hok, hnd⟩
      | some ts =>
        cases raw with
        | malformed =>
          rw [postMessages_malformed auth hsid hl]
          exact ⟨hok, hnd⟩
        | valid msg =>
          cases hh : handleMessage ts msg auth with
          | error e =>
            rw [postMessages_handleError hsid hl hh]
            exact ⟨hok, hnd⟩
          | ok o =>
            rw [postMessages_accepted hsid hl hh]
            obtain ⟨hdes, hsess, hserv⟩ := handleMessage_ok_fields hh
            have hold : EntryOk s.nextId (sid, ts) := hok _ (alistLookup_mem hl)
            have hupd : ∀ p ∈ updateTable s.table sid o.state, EntryOk s.nextId p := by
              intro p hp
              rcases mem_updateTable hp with hp' | ⟨hk, hv⟩
              · exact hok p hp'
              · obtain ⟨a, b⟩ := p
                simp only at hk hv
                subst hk
                subst hv
                obtain ⟨h1, h2, h3, k, hk', he⟩ := hold
                refine ⟨?_, ?_, ?_, k, hk', he⟩
                · rw [hdes, h1]
                · rw [hserv]
                  exact h2
                · rw [hsess, h3]
            have hndupd : ((updateTable s.table sid o.state).map Prod.fst).Nodup := by
              rw [map_fst_updateTable]
              exact hnd
            by_cases hraised : o.errorRaised.isSome
            · simp only [hraised, if_pos rfl]
              refine ⟨?_, ?_⟩
              · intro p hp
                exact hupd p (mem_removeTable hp)
              · exact hndupd.sublist ((List.filter_sublist _).map Prod.fst)
            · simp only [hraised, if_neg hraised]
              exact ⟨hupd, hndupd⟩

theorem reachable_tableOk {s : ServerState} (h : ServerReachable s) : TableOk s := by
  induction h with
  | init =>
    exact ⟨by intro p hp; exact absurd hp (List.not_mem_nil p), List.nodup_nil⟩
  | step _ hstep ih =>
    cases hstep with
    | openS reg => exact tableOk_open reg ih
    | closeS sid => exact tableOk_close sid ih
    | postS sessionId? raw auth => exact tableOk_post sessionId? raw auth ih

/-! ## Trace classification -/

/-- Is this event the HTTP reply of the submission call? -/
def isReplyEv : PostEvent → Bool
  | .replied _ _ => true
  | _ => false

/-- Is this event a registry handler invocation? -/
def isInvokeEv : PostEvent → Bool
  | .invoked _ => true
  | _ => false

/-- Is this event a write to some session's stream? -/
def isWroteEv : PostEvent → Bool
  | .wrote _ _ => true
  | _ => false

theorem routeRequest_trace_invoked (srv : Option Registry) (req : JSONRPCMessage)
    (auth : Option AuthInfo) :
    ∀ e ∈ (routeRequest srv req auth).trace, ∃ m, e = .invoked m := by
  intro e he
  rcases srv with _ | reg
  · simp [routeRequest] at he
  · by_cases h1 : methodOf? req = some "tools/list"
    · cases hl : reg.lookup "tools/list" with
      | none =>
        have hnone : ∀ m, methodOf? req = some m → reg.lookup m = none := by
          intro m hm
          rw [h1] at hm
          cases hm
          exact hl
        rw [routeRequest_unknown auth (Or.inr hnone)] at he
        simp at he
      | some h =>
        rw [routeRequest_invokes auth (Or.inl rfl) h1 hl] at he
        simp at he
        exact ⟨_, he⟩
    · by_cases h2 : methodOf? req = some "tools/call"
      · cases hl : reg.lookup "tools/call" with
        | none =>
          have hnone : ∀ m, methodOf? req = some m → reg.lookup m = none := by
            intro m hm
            rw [h2] at hm
            cases hm
            exact hl
          rw [routeRequest_unknown auth (Or.inr hnone)] at he
          simp at he
        | some h =>
          rw [routeRequest_invokes auth (Or.inr rfl) h2 hl] at he
          simp at he
          exact ⟨_, he⟩
      · rw [routeRequest_unknown auth (Or.inl ⟨h1, h2⟩)] at he
        simp at he

theorem handleMessage_isOk {ts : TransportState} {reg : Registry}
    (msg : JSONRPCMessage) (auth : Option AuthInfo) (hs : ts.server = some reg) :
    ∃ o, handleMessage ts msg auth = .ok o := by
  cases hid : idOf? msg with
  | none => exact ⟨_, handleMessage_noId auth hs hid⟩
  | some rid =>
    cases hd : ts.destroyed with
    | false => exact ⟨_, handleMessage_id_live auth hs hid hd⟩
    | true => exact ⟨_, handleMessage_id_dead auth hs hid hd⟩

theorem handleMessage_trace_no_reply {ts : TransportState} {reg : Registry}
    {msg : JSONRPCMessage} {auth : Option AuthInfo} {o : HandleOutcome}
    (hs : ts.server = some reg) (h : handleMessage ts msg auth = .ok o) :
    ∀ e ∈ o.trace, isReplyEv e = false := by
  intro e he
  cases hid : idOf? msg with
  | none =>
    rw [handleMessage_noId auth hs hid] at h
    cases h
    simp at he
  | some rid =>
    cases hd : ts.destroyed with
    | false =>
      rw [handleMessage_id_live auth hs hid hd] at h
      cases h
      simp only [List.mem_append, List.mem_singleton] at he
      rcases he with he | he
      · obtain ⟨m, hm⟩ := routeRequest_trace_invoked _ _ _ e he
        rw [hm]
        rfl
      · rw [he]
        rfl
    | true =>
      rw [handleMessage_id_dead auth hs hid hd] at h
      cases h
      obtain ⟨m, hm⟩ := routeRequest_trace_invoked _ _ _ e he
      rw [hm]
      rfl

/-! ## Concrete fixtures used by witnesses and counterexamples -/

/-- A registered `tools/list` handler that returns successfully. -/
def exListHandler : Handler := fun _ _ => .ok (.str "tool catalog")

/-- A registered `tools/call` handler whose invocation rejects. -/
def exThrowHandler : Handler := fun _ _ => .error "boom"

/-- A registry with a successful `tools/list` handler, a rejecting
`tools/call` handler, and an unrelated entry that must never be invoked. -/
def exRegistry : Registry :=
  ⟨[("tools/list", exListHandler), ("tools/call", exThrowHandler),
    ("other/method", exListHandler)]⟩

/-- A live connected transport for session `s1`. -/
def exTransport : TransportState :=
  { sessionId := "s1", messageUrl := "/api/messages", destroyed := false
    written := [], server := some exRegistry }

/-- A transport for session `d1` whose connection has been destroyed. -/
def deadTransport : TransportState :=
  { sessionId := "d1", messageUrl := "/api/messages", destroyed := true
    written := [], server := some exRegistry }

/-- A session table holding one live and one dead session. -/
def exTable : SessionTable :=
  [("s1", exTransport), ("d1", deadTransport)]

/-- A concrete `tools/list` request envelope with identifier 1. -/
def exRequest : JSONRPCMessage := .request (.num 1) "tools/list" .null

/-! ## The claims -/

/-- **C6**: an inbound envelope carrying no identifier (a fire-and-forget
notification) produces no response: `handleMessage` returns with the
transport state unchanged (nothing written to the stream), an empty event
trace (no handler invoked, no frame sent, so no Response Envelope is
constructed), and no error raised. -/
theorem claim_C6 (ts : TransportState) (reg : Registry) (m : String)
    (params : JsonValue) (auth : Option AuthInfo) (hs : ts.server = some reg) :
    handleMessage ts (.notif m params) auth = .ok ⟨ts, [], none⟩ :=
  handleMessage_noId auth hs rfl

/-- Witness for C6 at a concrete notification. -/
theorem claim_C6_witness :
    exTransport.server = some exRegistry ∧
      handleMessage exTransport (.notif "progress" .null) none =
        .ok ⟨exTransport, [], none⟩ :=
  ⟨rfl, claim_C6 exTransport exRegistry "progress" .null none rfl⟩

/-- **C7**: for every opened stream, `start` on the freshly constructed,
connected transport writes exactly three frames in order — the
endpoint-announcement event (carrying the submission address embedding the
session identifier) first, strictly before the informational session event
and strictly before any message event. -/
theorem claim_C7 (u sid : String) (reg : Registry) :
    ∃ ts', start (connectToServer (newTransport u sid) reg) = .ok ts' ∧
      ts'.written =
        [⟨"endpoint", .endpointUrl (u ++ "?sessionId=" ++ sid)⟩,
         ⟨"session", .sessionInfo sid⟩,
         ⟨"message", .message (welcomeMessage sid)⟩] ∧
      ts'.written.head? = some ⟨"endpoint", .endpointUrl (u ++ "?sessionId=" ++ sid)⟩ :=
  ⟨_, start_fresh u sid reg, rfl, rfl⟩

/-- **C10**: routing invokes a registry handler if and only if the
envelope's method is exactly `tools/list` or `tools/call` and the handler
map contains that name; in every other case — including those two names
with no registered handler — it throws `Unknown method: ...` and invokes
nothing (the trace is empty and the outcome ignores handlers registered
under other names). -/
theorem claim_C10 (reg : Registry) (req : JSONRPCMessage) (auth : Option AuthInfo) :
    ((methodOf? req ≠ some "tools/list" ∧ methodOf? req ≠ some "tools/call") →
      routeRequest (some reg) req auth =
        ⟨[], .error ("Unknown method: " ++ methodStr req)⟩) ∧
    (∀ m, methodOf? req = some m → (m = "tools/list" ∨ m = "tools/call") →
      (reg.lookup m = none →
        routeRequest (some reg) req auth =
          ⟨[], .error ("Unknown method: " ++ methodStr req)⟩) ∧
      (∀ h, reg.lookup m = some h →
        routeRequest (some reg) req auth = ⟨[.invoked m], h req auth⟩)) := by
  refine ⟨fun hne => routeRequest_unknown auth (Or.inl hne), ?_⟩
  intro m hm hmem
  constructor
  · intro hl
    refine routeRequest_unknown auth (Or.inr ?_)
    intro m' hm'
    rw [hm] at hm'
    cases hm'
    exact hl
  · intro h hl
    exact routeRequest_invokes auth hmem hm hl

/-- Witness for C10: with the fixture registry, `tools/list` dispatches to
its handler and an unregistered method name is rejected without invoking
the handler registered under `other/method`. -/
theorem claim_C10_witness :
    routeRequest (some exRegistry) exRequest none =
        ⟨[.invoked "tools/list"], exListHandler exRequest none⟩ ∧
      routeRequest (some exRegistry) (.request (.num 2) "other/method" .null) none =
        ⟨[], .error ("Unknown method: " ++ methodStr (.request (.num 2) "other/method" .null))⟩ :=
  ⟨((claim_C10 exRegistry exRequest none).2 "tools/list" rfl (Or.inl rfl)).2
      exListHandler rfl,
   (claim_C10 exRegistry (.request (.num 2) "other/method" .null) none).1
      (by decide)⟩

/-- **C2**: when the session's stream has already closed (destroyed) by the
time its response is ready, delivery is dropped cleanly: `handleMessage`
still returns normally (no exception into request-handling code) with the
stream's written frames unchanged, the submission call still replies 202,
no write event occurs for any stream, and the failure shows up only as the
session's removal from the table — subsequent lookups find nothing, while
every other session is untouched. -/
theorem claim_C2 (t : SessionTable) (sid : String) (ts : TransportState)
    (reg : Registry) (msg : JSONRPCMessage) (rid : RequestId)
    (auth : Option AuthInfo) (hsid : sid ≠ "")
    (hl : alistLookup t sid = some ts) (hd : ts.destroyed = true)
    (hs : ts.server = some reg) (hid : idOf? msg = some rid) :
    (∃ o, handleMessage ts msg auth = .ok o ∧ o.state.written = ts.written) ∧
    (postMessages t (some sid) (.valid msg) auth).status = 202 ∧
    (∀ e ∈ (postMessages t (some sid) (.valid msg) auth).trace,
      isWroteEv e = false) ∧
    alistLookup (postMessages t (some sid) (.valid msg) auth).table sid = none ∧
    (∀ sid', sid' ≠ sid →
      alistLookup (postMessages t (some sid) (.valid msg) auth).table sid' =
        alistLookup t sid') := by
  have hh := handleMessage_id_dead auth hs hid hd
  have hpost := postMessages_accepted hsid hl hh
  refine ⟨⟨_, hh, rfl⟩, ?_, ?_, ?_, ?_⟩
  · rw [hpost]
  · intro e he
    rw [hpost] at he
    simp only [List.mem_append, List.mem_singleton] at he
    rcases he with he | he
    · obtain ⟨m, hm⟩ := routeRequest_trace_invoked _ _ _ e he
      rw [hm]
      rfl
    · rw [he]
      rfl
  · rw [hpost]
    exact alistLookup_remove_self _ _
  · intro sid' hne
    rw [hpost]
    show alistLookup (removeTable (updateTable t sid _) sid) sid' = alistLookup t sid'
    rw [alistLookup_remove_other hne, alistLookup_update_other _ hne]

/-- Witness for C2: submitting for session `d1`, whose stream is
destroyed, is dropped cleanly and removes `d1` while `s1` is untouched. -/
theorem claim_C2_witness :
    ("d1" : String) ≠ "" ∧
    alistLookup exTable "d1" = some deadTransport ∧
    deadTransport.destroyed = true ∧
    (postMessages exTable (some "d1") (.valid exRequest) none).status = 202 ∧
    alistLookup (postMessages exTable (some "d1") (.valid exRequest) none).table "d1" =
      none := by
  have h := claim_C2 exTable "d1" deadTransport exRegistry exRequest (.num 1) none
    (by decide) rfl rfl rfl rfl
  exact ⟨by decide, rfl, rfl, h.2.1, h.2.2.2.1⟩

/-- **C3**: an accepted request envelope with identifier `rid`, submitted
for a live session, yields exactly one response appended to that session's
stream: it echoes `rid` exactly, carries exactly one of a success result
or an error (never both), and no other session's stream or table entry
changes. -/
theorem claim_C3 (t : SessionTable) (sid : String) (ts : TransportState)
    (reg : Registry) (msg : JSONRPCMessage) (rid : RequestId)
    (auth : Option AuthInfo) (hsid : sid ≠ "")
    (hl : alistLookup t sid = some ts) (hd : ts.destroyed = false)
    (hs : ts.server = some reg) (hid : idOf? msg = some rid) :
    ∃ res? err?,
      alistLookup (postMessages t (some sid) (.valid msg) auth).table sid =
        some { ts with written := ts.written ++
          [⟨"message", .message (.response rid res? err?)⟩] } ∧
      ((∃ v, res? = some v) ∧ err? = none ∨
        res? = none ∧ ∃ er, err? = some er) ∧
      (∀ sid', sid' ≠ sid →
        alistLookup (postMessages t (some sid) (.valid msg) auth).table sid' =
          alistLookup t sid') := by
  have hh := handleMessage_id_live auth hs hid hd
  have hpost := postMessages_accepted hsid hl hh
  cases hr : (routeRequest (some reg) msg auth).result with
  | ok v =>
    refine ⟨some v, none, ?_, Or.inl ⟨⟨v, rfl⟩, rfl⟩, ?_⟩
    · rw [hpost, hr]
      exact alistLookup_update_self _ hl
    · intro sid' hne
      rw [hpost]
      exact alistLookup_update_other _ hne
  | error er =>
    refine ⟨none, some ⟨-32603, er⟩, ?_, Or.inr ⟨rfl, ⟨-32603, er⟩, rfl⟩, ?_⟩
    · rw [hpost, hr]
      exact alistLookup_update_self _ hl
    · intro sid' hne
      rw [hpost]
      exact alistLookup_update_other _ hne

/-- Witness for C3: the `tools/list` request with identifier 1 on session
`s1` yields exactly the success response echoing identifier 1, and leaves
session `d1` unchanged. -/
theorem claim_C3_witness :
    alistLookup exTable "s1" = some exTransport ∧
    alistLookup (postMessages exTable (some "s1") (.valid exRequest) none).table "s1" =
      some { exTransport with written := exTransport.written ++
        [⟨"message", .message (.response (.num 1) (some (.str "tool catalog")) none)⟩] } ∧
    alistLookup (postMessages exTable (some "s1") (.valid exRequest) none).table "d1" =
      alistLookup exTable "d1" := by
  obtain ⟨res?, err?, hmain, hone, hother⟩ :=
    claim_C3 exTable "s1" exTransport exRegistry exRequest (.num 1) none
      (by decide) rfl rfl rfl rfl
  exact ⟨rfl, rfl, hother "d1" (by decide)⟩

/-- **C5**: for an accepted identified request, an unresolved method is
answered asynchronously (the submission call still replies 202/Accepted)
with an error Response Envelope on the session's stream whose message
names the method-not-found condition (`Unknown method: ...`, generic code
-32603); and a resolved handler that throws/rejects is answered the same
way with an error Response Envelope carrying the failure's message. -/
theorem claim_C5 (t : SessionTable) (sid : String) (ts : TransportState)
    (reg : Registry) (rid : RequestId) (m : String) (params : JsonValue)
    (auth : Option AuthInfo) (hsid : sid ≠ "")
    (hl : alistLookup t sid = some ts) (hd : ts.destroyed = false)
    (hs : ts.server = some reg) :
    (((m ≠ "tools/list" ∧ m ≠ "tools/call") ∨ reg.lookup m = none) →
      (postMessages t (some sid) (.valid (.request rid m params)) auth).status = 202 ∧
      (postMessages t (some sid) (.valid (.request rid m params)) auth).body = .accepted ∧
      alistLookup
          (postMessages t (some sid) (.valid (.request rid m params)) auth).table sid =
        some { ts with written := ts.written ++
          [⟨"message", .message
            (.response rid none (some ⟨-32603, "Unknown method: " ++ m⟩))⟩] }) ∧
    (∀ h emsg, (m = "tools/list" ∨ m = "tools/call") → reg.lookup m = some h →
      h (.request rid m params) auth = .error emsg →
      (postMessages t (some sid) (.valid (.request rid m params)) auth).status = 202 ∧
      (postMessages t (some sid) (.valid (.request rid m params)) auth).body = .accepted ∧
      alistLookup
          (postMessages t (some sid) (.valid (.request rid m params)) auth).table sid =
        some { ts with written := ts.written ++
          [⟨"message", .message (.response rid none (some ⟨-32603, emsg⟩))⟩] }) := by
  constructor
  · intro hcase
    have hroute : routeRequest (some reg) (.request rid m params) auth =
        ⟨[], .error ("Unknown method: " ++ methodStr (.request rid m params))⟩ := by
      refine routeRequest_unknown auth ?_
      rcases hcase with ⟨h1, h2⟩ | hnone
      · exact Or.inl ⟨by simp [methodOf?, h1], by simp [methodOf?, h2]⟩
      · refine Or.inr ?_
        intro m' hm'
        simp only [methodOf?, Option.some.injEq] at hm'
        rw [← hm']
        exact hnone
    have hh := handleMessage_id_live auth hs
      (show idOf? (.request rid m params) = some rid from rfl) hd
    rw [hroute] at hh
    have hpost := postMessages_accepted hsid hl hh
    refine ⟨?_, ?_, ?_⟩
    · rw [hpost]
    · rw [hpost]
    · rw [hpost]
      exact alistLookup_update_self _ hl
  · intro h emsg hmem hlk hthrow
    have hroute : routeRequest (some reg) (.request rid m params) auth =
        ⟨[.invoked m], h (.request rid m params) auth⟩ :=
      routeRequest_invokes auth hmem rfl hlk
    have hh := handleMessage_id_live auth hs
      (show idOf? (.request rid m params) = some rid from rfl) hd
    rw [hroute, hthrow] at hh
    have hpost := postMessages_accepted hsid hl hh
    refine ⟨?_, ?_, ?_⟩
    · rw [hpost]
    · rw [hpost]
    · rw [hpost]
      exact alistLookup_update_self _ hl

/-- Witness for C5: on session `s1`, an unregistered method produces the
`Unknown method` error envelope on the stream, and the rejecting
`tools/call` handler produces an error envelope carrying its message. -/
theorem claim_C5_witness :
    (postMessages exTable (some "s1")
        (.valid (.request (.num 7) "no/such" .null)) none).status = 202 ∧
    alistLookup (postMessages exTable (some "s1")
        (.valid (.request (.num 7) "no/such" .null)) none).table "s1" =
      some { exTransport with written := exTransport.written ++
        [⟨"message", .message
          (.response (.num 7) none (some ⟨-32603, "Unknown method: " ++ "no/such"⟩))⟩] } ∧
    alistLookup (postMessages exTable (some "s1")
        (.valid (.request (.num 8) "tools/call" .null)) none).table "s1" =
      some { exTransport with written := exTransport.written ++
        [⟨"message", .message (.response (.num 8) none (some ⟨-32603, "boom"⟩))⟩] } := by
  have ha := (claim_C5 exTable "s1" exTransport exRegistry (.num 7) "no/such" .null none
    (by decide) rfl rfl rfl).1 (Or.inl (by decide))
  have hb := (claim_C5 exTable "s1" exTransport exRegistry (.num 8) "tools/call" .null none
    (by decide) rfl rfl rfl).2 exThrowHandler "boom" (Or.inr rfl) rfl rfl
  exact ⟨ha.1, ha.2.2, hb.2.2⟩

/-- **C4**: the submission call rejects synchronously if and only if the
`sessionId` query parameter is missing (or empty, which JavaScript
truthiness treats the same) — invalid-parameter error, client-error 400 —
or it names no live session — session-not-found error, 404, a distinct
status and message from the invalid-parameter case — or the payload fails
envelope-schema validation — 500, server-error; in each rejection the
session table (hence every stream) is untouched and the trace holds only
the HTTP reply (no capability invoked, nothing written to any stream); in
every other case the call replies 202/Accepted. -/
theorem claim_C4 (t : SessionTable) (sessionId? : Option String)
    (raw : RawPayload) (auth : Option AuthInfo)
    (hsrv : ∀ p ∈ t, p.2.server.isSome) :
    ((sessionId? = none ∨ sessionId? = some "") →
      (postMessages t sessionId? raw auth).status = 400 ∧
      (postMessages t sessionId? raw auth).body =
        .rpcError (-32602) "Missing sessionId query parameter" ∧
      (postMessages t sessionId? raw auth).table = t ∧
      (postMessages t sessionId? raw auth).trace =
        [.replied 400 (.rpcError (-32602) "Missing sessionId query parameter")]) ∧
    (∀ sid, sessionId? = some sid → sid ≠ "" → alistLookup t sid = none →
      (postMessages t sessionId? raw auth).status = 404 ∧
      (postMessages t sessionId? raw auth).body =
        .rpcError (-32602) "No active session found with the provided sessionId" ∧
      (postMessages t sessionId? raw auth).table = t ∧
      (postMessages t sessionId? raw auth).trace =
        [.replied 404
          (.rpcError (-32602) "No active session found with the provided sessionId")]) ∧
    (∀ sid ts, sessionId? = some sid → sid ≠ "" → alistLookup t sid = some ts →
      raw = .malformed →
      (postMessages t sessionId? raw auth).status = 500 ∧
      (postMessages t sessionId? raw auth).body =
        .rpcError (-32603) "Internal error processing message" ∧
      (postMessages t sessionId? raw auth).table = t ∧
      (postMessages t sessionId? raw auth).trace =
        [.replied 500 (.rpcError (-32603) "Internal error processing message")]) ∧
    (∀ sid ts m, sessionId? = some sid → sid ≠ "" → alistLookup t sid = some ts →
      raw = .valid m →
      (postMessages t sessionId? raw auth).status = 202 ∧
      (postMessages t sessionId? raw auth).body = .accepted) := by
  refine ⟨?_, ?_, ?_, ?_⟩
  · intro hcase
    rcases hcase with h | h <;> subst h
    · rw [postMessages_noSession]
      exact ⟨rfl, rfl, rfl, rfl⟩
    · rw [postMessages_emptySession]
      exact ⟨rfl, rfl, rfl, rfl⟩
  · intro sid hq hsid hl
    subst hq
    rw [postMessages_unknownSession raw auth hsid hl]
    exact ⟨rfl, rfl, rfl, rfl⟩
  · intro sid ts hq hsid hl hraw
    subst hq
    subst hraw
    rw [postMessages_malformed auth hsid hl]
    exact ⟨rfl, rfl, rfl, rfl⟩
  · intro sid ts m hq hsid hl hraw
    subst hq
    subst hraw
    obtain ⟨reg, hreg⟩ := Option.isSome_iff_exists.mp (hsrv _ (alistLookup_mem hl))
    obtain ⟨o, hh⟩ := handleMessage_isOk m auth hreg
    rw [postMessages_accepted hsid hl hh]
    exact ⟨rfl, rfl⟩

/-- Witness for C4: each rejection case and the accepted case at concrete
inputs against the fixture table. -/
theorem claim_C4_witness :
    (postMessages exTable none (.valid exRequest) none).status = 400 ∧
    (postMessages exTable (some "") (.valid exRequest) none).status = 400 ∧
    (postMessages exTable (some "zz") (.valid exRequest) none).status = 404 ∧
    (postMessages exTable (some "zz") (.valid exRequest) none).table = exTable ∧
    (postMessages exTable (some "s1") .malformed none).status = 500 ∧
    (postMessages exTable (some "s1") .malformed none).table = exTable ∧
    (postMessages exTable (some "s1") (.valid exRequest) none).status = 202 := by
  have hsrv : ∀ p ∈ exTable, p.2.server.isSome := by decide
  refine ⟨((claim_C4 exTable none (.valid exRequest) none hsrv).1 (Or.inl rfl)).1,
    ((claim_C4 exTable (some "") (.valid exRequest) none hsrv).1 (Or.inr rfl)).1,
    ?_, ?_, ?_, ?_, ?_⟩
  · exact ((claim_C4 exTable (some "zz") (.valid exRequest) none hsrv).2.1 "zz" rfl
      (by decide) rfl).1
  · exact ((claim_C4 exTable (some "zz") (.valid exRequest) none hsrv).2.1 "zz" rfl
      (by decide) rfl).2.2.1
  · exact ((claim_C4 exTable (some "s1") .malformed none hsrv).2.2.1 "s1" exTransport rfl
      (by decide) rfl rfl).1
  · exact ((claim_C4 exTable (some "s1") .malformed none hsrv).2.2.1 "s1" exTransport rfl
      (by decide) rfl rfl).2.2.1
  · exact ((claim_C4 exTable (some "s1") (.valid exRequest) none hsrv).2.2.2 "s1"
      exTransport exRequest rfl (by decide) rfl rfl).1

/-- **C8**: the session table contains only live sessions — in every
reachable server state each stored transport's stream is undestroyed; an
entry is inserted exactly at stream open (the open handler conses exactly
the new started session onto the table), is removed by the connection's
close/error callback, and is likewise removed when a send to it fails (a
submission whose response hits a destroyed stream leaves the session
absent from the table). -/
theorem claim_C8 :
    (∀ s, ServerReachable s →
      (∀ p ∈ s.table, p.2.destroyed = false) ∧
      (∀ reg, (openStream s reg).table =
        (uuidGen s.nextId, startedTransport (uuidGen s.nextId) reg) :: s.table) ∧
      (∀ sid, alistLookup (closeStream s sid).table sid = none)) ∧
    (∀ (t : SessionTable) (sid : String) (ts : TransportState) (reg : Registry)
        (msg : JSONRPCMessage) (rid : RequestId) (auth : Option AuthInfo),
      sid ≠ "" → alistLookup t sid = some ts → ts.destroyed = true →
      ts.server = some reg → idOf? msg = some rid →
      alistLookup (postMessages t (some sid) (.valid msg) auth).table sid = none) := by
  constructor
  · intro s h
    obtain ⟨hok, hnd⟩ := reachable_tableOk h
    refine ⟨fun p hp => (hok p hp).1, ?_, ?_⟩
    · intro reg
      rw [openStream_eq]
    · intro sid
      exact alistLookup_remove_self _ _
  · intro t sid ts reg msg rid auth hsid hl hd hs hid
    have hh := handleMessage_id_dead auth hs hid hd
    rw [postMessages_accepted hsid hl hh]
    exact alistLookup_remove_self _ _

/-- Witness for C8: a freshly opened session is live; closing its
connection removes it; a submission for the dead session `d1` removes it
from the fixture table. -/
theorem claim_C8_witness :
    (startedTransport (uuidGen 0) exRegistry).destroyed = false ∧
    alistLookup
        (closeStream (openStream initialServer exRegistry) (uuidGen 0)).table
        (uuidGen 0) = none ∧
    alistLookup (postMessages exTable (some "d1") (.valid exRequest) none).table "d1" =
      none := by
  have hreach : ServerReachable (openStream initialServer exRegistry) :=
    .step .init (.openS initialServer exRegistry)
  refine ⟨?_, ?_, ?_⟩
  · exact (claim_C8.1 _ hreach).1 (uuidGen 0, startedTransport (uuidGen 0) exRegistry)
      (by rw [openStream_eq]; exact List.mem_cons_self _ _)
  · exact (claim_C8.1 _ hreach).2.2 (uuidGen 0)
  · exact claim_C8.2 exTable "d1" deadTransport exRegistry exRequest (.num 1) none
      (by decide) rfl rfl rfl rfl

/-- **C9**: in every reachable server state the live sessions' identifiers
are pairwise distinct; the next identifier the generator issues at a
stream open is fresh (not held by any live session), and each open
prepends exactly that fresh identifier — so N concurrently opened streams
hold N distinct identifiers. -/
theorem claim_C9 (s : ServerState) (h : ServerReachable s) :
    (s.table.map Prod.fst).Nodup ∧
    uuidGen s.nextId ∉ s.table.map Prod.fst ∧
    (∀ reg, (openStream s reg).table.map Prod.fst =
      uuidGen s.nextId :: s.table.map Prod.fst) := by
  obtain ⟨hok, hnd⟩ := reachable_tableOk h
  refine ⟨hnd, ?_, ?_⟩
  · intro hmem
    obtain ⟨p, hp, hfst⟩ := List.mem_map.mp hmem
    obtain ⟨_, _, _, k, hk, he⟩ := hok p hp
    have hkn : k = s.nextId := uuidGen_injective (by rw [← he, hfst])
    omega
  · intro reg
    rw [openStream_eq]
    rfl

/-- Witness for C9: after two stream opens the two issued identifiers are
distinct and the next one is fresh. -/
theorem claim_C9_witness :
    ((openStream (openStream initialServer exRegistry) exRegistry).table.map
      Prod.fst).Nodup ∧
    uuidGen 2 ∉
      (openStream (openStream initialServer exRegistry) exRegistry).table.map
        Prod.fst := by
  have hreach :
      ServerReachable (openStream (openStream initialServer exRegistry) exRegistry) :=
    .step (.step .init (.openS initialServer exRegistry))
      (.openS (openStream initialServer exRegistry) exRegistry)
  have h := claim_C9 _ hreach
  exact ⟨h.1, h.2.1⟩

/-- The property C1 asserts of a submission call's event trace: every HTTP
reply it issues occurs strictly before every capability invocation
completes. -/
def repliesBeforeInvocations (tr : List PostEvent) : Prop :=
  ∀ i j, (hi : i < tr.length) → (hj : j < tr.length) →
    isReplyEv (tr.get ⟨i, hi⟩) = true → isInvokeEv (tr.get ⟨j, hj⟩) = true → i < j

/-- **C1 counterexample**: a concrete accepted submission (the fixture
`tools/list` request on live session `s1`) whose trace places the
202/Accepted HTTP reply *after* the completed capability invocation — the
submission handler awaits `handleMessage` (which awaits the handler and
the stream send) before replying, so the accepted status is not returned
before the invocation completes. -/
theorem claim_C1_counterexample :
    (postMessages exTable (some "s1") (.valid exRequest) none).status = 202 ∧
    ¬ repliesBeforeInvocations
        (postMessages exTable (some "s1") (.valid exRequest) none).trace := by
  refine ⟨rfl, ?_⟩
  intro hcl
  have h := hcl 2 0 (by decide) (by decide) (by decide) (by decide)
  omega

/-- **C1 amended**: for every accepted submission, the "accepted for
processing" status is returned only after the dispatched capability
invocation and the stream delivery have completed — the HTTP reply is the
last event of the submission call's trace, preceded by no other reply —
and the reply body is the bare `Accepted` text, so the result or error is
delivered only via the session's stream, never in the submission call's
own response body. -/
theorem claim_C1_amended (t : SessionTable) (sid : String) (ts : TransportState)
    (reg : Registry) (msg : JSONRPCMessage) (auth : Option AuthInfo)
    (hsid : sid ≠ "") (hl : alistLookup t sid = some ts)
    (hs : ts.server = some reg) :
    (postMessages t (some sid) (.valid msg) auth).status = 202 ∧
    (postMessages t (some sid) (.valid msg) auth).body = .accepted ∧
    ∃ pre, (postMessages t (some sid) (.valid msg) auth).trace =
        pre ++ [.replied 202 .accepted] ∧
      ∀ e ∈ pre, isReplyEv e = false := by
  obtain ⟨o, hh⟩ := handleMessage_isOk msg auth hs
  rw [postMessages_accepted hsid hl hh]
  exact ⟨rfl, rfl, o.trace, rfl, handleMessage_trace_no_reply hs hh⟩

/-- Witness for the amended C1 at the fixture submission: the reply event
is last, after the invocation and the stream write. -/
theorem claim_C1_witness :
    (postMessages exTable (some "s1") (.valid exRequest) none).status = 202 ∧
    (postMessages exTable (some "s1") (.valid exRequest) none).body = .accepted ∧
    (postMessages exTable (some "s1") (.valid exRequest) none).trace =
      [.invoked "tools/list",
       .wrote "s1" ⟨"message",
         .message (.response (.num 1) (some (.str "tool catalog")) none)⟩]
      ++ [.replied 202 .accepted] := by
  have h := claim_C1_amended exTable "s1" exTransport exRegistry exRequest none
    (by decide) rfl rfl
  exact ⟨h.1, h.2.1, rfl⟩
